import Mathlib

/-!
Verification of the graded stepwise execution engine of
`backend/core/execution.py`: the mission loop, the per-step retry state
machine, supervisor grading with attempt-dependent thresholds, and the
human-intervention escalation gate.

The Python code is shallowly embedded: external effects (the crew worker
call, the supervisor LLM call, request-id generation, and the pending
human-decision store) are supplied as oracles in an `Env` structure; all
control flow, state updates and emitted messages follow the source.
Machine effects that the loop observes only as data (a raised worker
exception becomes an error string, a failed or unparsable LLM reply
becomes the `err` call outcome) are modelled by the corresponding sum
types.  The unbounded `while` loop of the step controller is modelled
with explicit fuel; every claim is stated with enough fuel for the runs
it talks about.
-/

namespace AgentOS

/-- `SupervisorGrade` (execution.py lines 15-20). -/
structure SupervisorGrade where
  score : Int
  threshold : Int
  status : String
  feedback : String
  deriving Repr, DecidableEq

/-- The JSON payload parsed from the supervisor reply; each field may be
absent, and `evaluate_output` applies the `data.get` defaults. -/
structure GradePayload where
  score : Option Int
  threshold : Option Int
  status : Option String
  feedback : Option String
  deriving Repr, DecidableEq

/-- Outcome of the underlying LLM evaluation call: `err` covers both a
raised exception in `llm.call` and a `json.loads` failure (both are
caught by the single `try` block, lines 187-201); `ok` is a successfully
parsed payload. -/
inductive EvalCallResult where
  | err
  | ok (data : GradePayload)
  deriving Repr, DecidableEq

/-- Base threshold by attempt number (lines 146-152). -/
def base_threshold (attempt : Nat) : Int :=
  if attempt = 1 then 85
  else if attempt = 2 then 75
  else 60

/-- `evaluate_output` (lines 145-201).  The prompt built from
`instruction`, `output`, `attempt` and the base threshold goes to the
LLM; the outcome of that external call is the oracle argument `call`. -/
def evaluate_output (instruction output : String) (attempt max_attempts : Nat)
    (call : EvalCallResult) : SupervisorGrade :=
  match call with
  | .ok data =>
      { score := data.score.getD 0
        threshold := data.threshold.getD (base_threshold attempt)
        status := data.status.getD "Failed"
        feedback := data.feedback.getD "No feedback provided." }
  | .err =>
      { score := 0
        threshold := base_threshold attempt
        status := "Failed"
        feedback := "Error during grading." }

/-- An entry of `agents_map`: only the `role` is observable in the loop. -/
structure Agent where
  role : String
  deriving Repr, DecidableEq

/-- A plan step as consumed by the loop: `step.get('agentId')` and
`step.get('instruction', '')`, so both fields may be absent. -/
structure Step where
  agentId : Option String
  instruction : Option String
  deriving Repr, DecidableEq

/-- `agents_map.get(agent_id)` (line 45): plain dictionary lookup; a
missing `agentId` key (`None`) finds nothing. -/
def agents_get (agents_map : List (String × Agent)) (agentId : Option String) :
    Option Agent :=
  match agentId with
  | none => none
  | some aid => (agents_map.find? (fun p => p.1 == aid)).map (·.2)

/-- Lines 44-48: look up the assigned agent, falling back to
`list(agents_map.values())[0]` when the lookup fails.  The result is
`none` exactly when the fallback itself hits an empty pool, which in the
source raises an uncaught `IndexError`. -/
def lookup_agent (agents_map : List (String × Agent)) (agentId : Option String) :
    Option Agent :=
  match agents_get agents_map agentId with
  | some a => some a
  | none => (agents_map.head?).map (·.2)

/-- Observable events of a run: websocket messages plus instrumentation
for loop iterations, worker invocations and consumed decisions (indexed
by plan position and attempt so per-step properties can be stated). -/
inductive Event where
  | log (agentName content : String)
  | workerCall (stepIdx attempt : Nat) (description : String)
  | interventionReq (requestId : String) (agentName instruction failedOutput : String)
      (score threshold : Int) (feedback : String)
  | decisionConsumed (requestId action : String)
  | loopIter (attempt allowed : Nat)
  deriving Repr, DecidableEq

/-- `send_system_log` (lines 231-237): a TERMINAL message from System. -/
def send_system_log (content : String) : Event := .log "System" content

/-- `send_terminal_log` (lines 239-246): content formatted as
`[agent]\n{content}`. -/
def send_terminal_log (agent content : String) : Event :=
  .log agent ("[" ++ agent ++ "]\n" ++ content)

/-- Line 60: rendering of the prior accepted outputs. -/
def context_str (history : List String) : String :=
  String.intercalate "\n"
    (history.enum.map (fun p => "Previous Output " ++ toString (p.1 + 1) ++ ":\n" ++ p.2))

/-- Line 61: the composed task description. -/
def full_description (instruction : String) (history : List String) : String :=
  instruction ++ "\n\nCONTEXT FROM PREVIOUS STEPS:\n" ++ context_str history

/-- Oracles for the external world, indexed by plan position and attempt:
`kickoff` is the crew worker call (`.error` models a raised exception,
caught at lines 87-91), `evalCall` the supervisor LLM call, and
`reqIdFor` the request-id generation (a timestamp in the source,
line 205). -/
structure Env where
  kickoff : Nat → Nat → String → Except String String
  evalCall : Nat → Nat → EvalCallResult
  reqIdFor : Nat → Nat → String

/-- `human_input_store.pop(req_id)` (line 227): remove and return the
first entry with the given request id. -/
def popDecision (store : List (String × String)) (reqId : String) :
    Option (String × List (String × String)) :=
  match store with
  | [] => none
  | (k, v) :: rest =>
      if k = reqId then some (v, rest)
      else
        match popDecision rest reqId with
        | some (v', rest') => some (v', (k, v) :: rest')
        | none => none

/-- Lines 87-91: the worker call, with a raised exception converted to
an error string by the `except` clause. -/
def worker_result (env : Env) (stepIdx attempt : Nat) (descr : String) : String :=
  match env.kickoff stepIdx attempt descr with
  | .ok r => r
  | .error e => "Error during execution: " ++ e

/-- The textual result captured for one attempt (lines 60-91): worker
invoked on the composed description. -/
def attempt_result (env : Env) (stepIdx attempt : Nat) (instruction : String)
    (ctx : List String) : String :=
  worker_result env stepIdx attempt (full_description instruction ctx)

/-- The grade produced for one attempt (line 96). -/
def attempt_grade (env : Env) (stepIdx attempt allowed : Nat) (instruction : String)
    (ctx : List String) : SupervisorGrade :=
  evaluate_output instruction (attempt_result env stepIdx attempt instruction ctx)
    attempt allowed (env.evalCall stepIdx attempt)

/-- Events emitted by one loop iteration up to the grade log (lines 67,
88, 94, 99), preceded by the iteration marker. -/
def iter_events (env : Env) (stepIdx : Nat) (agent : Agent) (instruction : String)
    (ctx : List String) (attempt allowed : Nat) : List Event :=
  let grade := attempt_grade env stepIdx attempt allowed instruction ctx
  [ .loopIter attempt allowed,
    send_terminal_log agent.role ("Executing: " ++ instruction ++ " (Attempt "
      ++ toString attempt ++ "/" ++ toString allowed ++ ")"),
    .workerCall stepIdx attempt (full_description instruction ctx),
    send_terminal_log "Supervisor" "Grading output...",
    send_terminal_log "Supervisor" ("QS: " ++ toString grade.score ++ "%\nScore: "
      ++ toString grade.score ++ "/100 (Threshold: " ++ toString grade.threshold
      ++ "). " ++ grade.status) ]

/-- The INTERVENTION_REQUIRED message (lines 205-217). -/
def intervention_request (env : Env) (stepIdx : Nat) (agent : Agent)
    (instruction : String) (ctx : List String) (attempt allowed : Nat) : Event :=
  let grade := attempt_grade env stepIdx attempt allowed instruction ctx
  .interventionReq (env.reqIdFor stepIdx attempt) agent.role instruction
    (attempt_result env stepIdx attempt instruction ctx)
    grade.score grade.threshold grade.feedback

/-- How one step's execution ended. -/
inductive StepOutcome where
  | complete
  | whileExit
  | cancelled
  | blocked
  | fuelOut
  deriving Repr, DecidableEq

/-- Result of running the step controller: final outcome, execution
context, pending-decision store, emitted events, and the final values of
the per-step counters. -/
structure StepRun where
  outcome : StepOutcome
  ctx : List String
  store : List (String × String)
  events : List Event
  finalAttempt : Nat
  finalAllowed : Nat
  deriving Repr, DecidableEq

/-- Prepend already-emitted events to the result of a continued run. -/
def StepRun.prepend (es : List Event) (r : StepRun) : StepRun :=
  { r with events := es ++ r.events }

/-- The step controller: the `while current_attempt <= attempts_allowed
and not step_complete` loop of `run_mission_loop` (lines 57-143),
including grading, bounded retry, and the escalation gate
(`request_human_intervention`, lines 203-228: publish the request, wait
for a decision with the same request id, pop it).  `blocked` models the
polling wait never returning because no matching decision is pending.
`fuel` bounds the number of loop iterations. -/
def runStepLoop (env : Env) (stepIdx : Nat) (agent : Agent) (instruction : String)
    (ctx : List String) (store : List (String × String))
    (current_attempt attempts_allowed : Nat) : Nat → StepRun
  | 0 => ⟨.fuelOut, ctx, store, [], current_attempt, attempts_allowed⟩
  | fuel + 1 =>
    if current_attempt ≤ attempts_allowed then
      let result_content := attempt_result env stepIdx current_attempt instruction ctx
      let grade := attempt_grade env stepIdx current_attempt attempts_allowed instruction ctx
      let pre := iter_events env stepIdx agent instruction ctx current_attempt attempts_allowed
      if grade.status = "Passed" then
        ⟨.complete, ctx ++ [result_content], store,
          pre ++ [ send_system_log "● OUTPUT",
                   send_terminal_log agent.role result_content,
                   send_system_log "● ACTION" ],
          current_attempt, attempts_allowed⟩
      else if current_attempt < attempts_allowed then
        StepRun.prepend
          (pre ++ [send_terminal_log "Supervisor" ("Feedback: " ++ grade.feedback)])
          (runStepLoop env stepIdx agent instruction ctx store
            (current_attempt + 1) attempts_allowed fuel)
      else
        let reqId := env.reqIdFor stepIdx current_attempt
        let reqEvent : Event :=
          intervention_request env stepIdx agent instruction ctx current_attempt attempts_allowed
        match popDecision store reqId with
        | none =>
            ⟨.blocked, ctx, store, pre ++ [reqEvent], current_attempt, attempts_allowed⟩
        | some (action, store') =>
            let consumed : List Event := pre ++ [reqEvent, .decisionConsumed reqId action]
            if action = "PROCEED" then
              ⟨.complete, ctx ++ [result_content], store',
                consumed
                  ++ [ send_terminal_log "System"
                         "User authorized proceeding with current output.",
                       send_system_log "● OUTPUT",
                       send_terminal_log agent.role result_content,
                       send_system_log "● ACTION" ],
                current_attempt, attempts_allowed⟩
            else if action = "IGNORE" then
              ⟨.complete, ctx, store',
                consumed ++ [send_terminal_log "System" "User chose to ignore this step."],
                current_attempt, attempts_allowed⟩
            else if action = "RETRY" then
              StepRun.prepend
                (consumed ++ [send_terminal_log "System" "User granted 2 extra attempts."])
                (runStepLoop env stepIdx agent instruction ctx store'
                  (current_attempt + 1) (attempts_allowed + 2) fuel)
            else if action = "CANCEL" then
              ⟨.cancelled, ctx, store',
                consumed ++ [send_system_log "Mission Cancelled by User."],
                current_attempt, attempts_allowed⟩
            else
              ⟨.complete, ctx, store', consumed, current_attempt, attempts_allowed⟩
    else
      ⟨.whileExit, ctx, store, [], current_attempt, attempts_allowed⟩

/-- How a whole mission run ended. -/
inductive MissionOutcome where
  | finished
  | cancelledBy (stepIdx : Nat)
  | blockedAt (stepIdx : Nat)
  | agentLookupError (stepIdx : Nat)
  | outOfFuel
  deriving Repr, DecidableEq

/-- Result of a mission run. -/
structure MissionRun where
  outcome : MissionOutcome
  ctx : List String
  store : List (String × String)
  events : List Event
  deriving Repr, DecidableEq

/-- The `for step_index, step in enumerate(plan)` loop (lines 43-143):
each step initializes `attempts_allowed = 3`, `current_attempt = 1` and
runs the step controller; a `CANCEL` decision returns from the loop;
`agentLookupError` models the uncaught `IndexError` of the fallback on
an empty pool. -/
def runMissionSteps (env : Env) (agents_map : List (String × Agent)) :
    List Step → Nat → List String → List (String × String) → Nat → MissionRun
  | [], _, ctx, store, _ => ⟨.finished, ctx, store, []⟩
  | step :: rest, stepIdx, ctx, store, fuel =>
    match lookup_agent agents_map step.agentId with
    | none => ⟨.agentLookupError stepIdx, ctx, store, []⟩
    | some agent =>
      let r := runStepLoop env stepIdx agent (step.instruction.getD "") ctx store 1 3 fuel
      match r.outcome with
      | .complete =>
          let rest' := runMissionSteps env agents_map rest (stepIdx + 1) r.ctx r.store fuel
          ⟨rest'.outcome, rest'.ctx, rest'.store, r.events ++ rest'.events⟩
      | .whileExit =>
          let rest' := runMissionSteps env agents_map rest (stepIdx + 1) r.ctx r.store fuel
          ⟨rest'.outcome, rest'.ctx, rest'.store, r.events ++ rest'.events⟩
      | .cancelled => ⟨.cancelledBy stepIdx, r.ctx, r.store, r.events⟩
      | .blocked => ⟨.blockedAt stepIdx, r.ctx, r.store, r.events⟩
      | .fuelOut => ⟨.outOfFuel, r.ctx, r.store, r.events⟩

/-- `run_mission_loop` (lines 22-143): the two initial system logs, then
the step loop, starting from an empty execution context. -/
def run_mission_loop (env : Env) (plan : List Step) (agents_map : List (String × Agent))
    (store : List (String × String)) (fuel : Nat) : MissionRun :=
  let r := runMissionSteps env agents_map plan 0 [] store fuel
  let intro : List Event :=
    [ send_system_log
        "Starting Execution: Flow optimization enabled. Supervisor (Gemini 2.5 Pro) ready.",
      send_system_log "● ACTION" ]
  { r with events := intro ++ r.events }

/-- Event classifiers used by the stated properties. -/
def Event.isInterventionReq : Event → Bool
  | .interventionReq .. => true
  | _ => false

def Event.isWorkerCall : Event → Bool
  | .workerCall .. => true
  | _ => false

def Event.isRetryConsumed : Event → Bool
  | .decisionConsumed _ action => action == "RETRY"
  | _ => false

def Event.isDecisionConsumed : Event → Bool
  | .decisionConsumed .. => true
  | _ => false

/-- Plan position of a worker invocation, if the event is one. -/
def workerCallIdx : Event → Option Nat
  | .workerCall i _ _ => some i
  | _ => none

/-- Attempt counter recorded at a loop-iteration entry, if the event is one. -/
def loopIterAttempt : Event → Option Nat
  | .loopIter a _ => some a
  | _ => none

/-- The decision-consumption events of the escalation gate, shared by the
lemmas below (lines 224-228 followed by the decision dispatch). -/
def escalation_events (env : Env) (stepIdx : Nat) (agent : Agent) (instruction : String)
    (ctx : List String) (attempt allowed : Nat) (action : String) : List Event :=
  iter_events env stepIdx agent instruction ctx attempt allowed
    ++ [ intervention_request env stepIdx agent instruction ctx attempt allowed,
         .decisionConsumed (env.reqIdFor stepIdx attempt) action ]

/-- A pool with a single worker, used in concrete runs. -/
def poolW : List (String × Agent) := [("w1", ⟨"Writer"⟩)]

/-- Oracle where every evaluation call fails (`err`), so every attempt is
graded Failed with score 0. -/
def envAllFail : Env :=
  ⟨fun _ _ _ => .ok "OUT", fun _ _ => .err,
   fun i a => "r" ++ toString i ++ "_" ++ toString a⟩

/-- Oracle where every evaluation parses to score 90 / threshold 85 /
status Passed. -/
def envAllPass : Env :=
  ⟨fun _ _ _ => .ok "OUT",
   fun _ _ => .ok ⟨some 90, some 85, some "Passed", some "good"⟩,
   fun i a => "r" ++ toString i ++ "_" ++ toString a⟩

/-- Oracle where the evaluation reports status Passed with a score
strictly below the reported threshold. -/
def envPassLowScore : Env :=
  ⟨fun _ _ _ => .ok "OUT",
   fun _ _ => .ok ⟨some 10, some 85, some "Passed", none⟩,
   fun i a => "r" ++ toString i ++ "_" ++ toString a⟩

/-- Oracle where every evaluation parses to a well-formed Failed grade
with score 50 (the spec's always-score-50 scenario). -/
def envScore50 : Env :=
  ⟨fun _ _ _ => .ok "OUT",
   fun _ _ => .ok ⟨some 50, some 85, some "Failed", some "needs work"⟩,
   fun i a => "r" ++ toString i ++ "_" ++ toString a⟩

/-! ## Unfolding lemmas for the step controller -/

/-- A passing grade completes the step at once: the result is appended
and no further iteration happens. -/
lemma runStepLoop_passed (env : Env) (stepIdx : Nat) (agent : Agent) (instruction : String)
    (ctx : List String) (store : List (String × String)) (attempt allowed fuel : Nat)
    (hle : attempt ≤ allowed)
    (hpass : (attempt_grade env stepIdx attempt allowed instruction ctx).status = "Passed") :
    runStepLoop env stepIdx agent instruction ctx store attempt allowed (fuel + 1)
      = ⟨.complete, ctx ++ [attempt_result env stepIdx attempt instruction ctx], store,
          iter_events env stepIdx agent instruction ctx attempt allowed
            ++ [ send_system_log "● OUTPUT",
                 send_terminal_log agent.role
                   (attempt_result env stepIdx attempt instruction ctx),
                 send_system_log "● ACTION" ],
          attempt, allowed⟩ := by
  simp [runStepLoop, hle, hpass]

/-- A failing grade with attempts remaining moves to the next attempt. -/
lemma runStepLoop_failed_next (env : Env) (stepIdx : Nat) (agent : Agent)
    (instruction : String) (ctx : List String) (store : List (String × String))
    (attempt allowed fuel : Nat) (hlt : attempt < allowed)
    (hfail : ¬ (attempt_grade env stepIdx attempt allowed instruction ctx).status = "Passed") :
    runStepLoop env stepIdx agent instruction ctx store attempt allowed (fuel + 1)
      = StepRun.prepend
          (iter_events env stepIdx agent instruction ctx attempt allowed
            ++ [ send_terminal_log "Supervisor"
                  ("Feedback: "
                    ++ (attempt_grade env stepIdx attempt allowed instruction ctx).feedback) ])
          (runStepLoop env stepIdx agent instruction ctx store (attempt + 1) allowed fuel) := by
  simp [runStepLoop, Nat.le_of_lt hlt, hlt, hfail]

/-- Attempts exhausted and no pending decision matches the request id:
the request is published and the run blocks. -/
lemma runStepLoop_exhausted_blocked (env : Env) (stepIdx : Nat) (agent : Agent)
    (instruction : String) (ctx : List String) (store : List (String × String))
    (attempt allowed fuel : Nat) (hle : attempt ≤ allowed) (hnlt : ¬ attempt < allowed)
    (hfail : ¬ (attempt_grade env stepIdx attempt allowed instruction ctx).status = "Passed")
    (hpop : popDecision store (env.reqIdFor stepIdx attempt) = none) :
    runStepLoop env stepIdx agent instruction ctx store attempt allowed (fuel + 1)
      = ⟨.blocked, ctx, store,
          iter_events env stepIdx agent instruction ctx attempt allowed
            ++ [intervention_request env stepIdx agent instruction ctx attempt allowed],
          attempt, allowed⟩ := by
  simp [runStepLoop, hle, hnlt, hfail, hpop]

/-- Attempts exhausted, decision `PROCEED`: the failing result is
accepted and appended. -/
lemma runStepLoop_decided_proceed (env : Env) (stepIdx : Nat) (agent : Agent)
    (instruction : String) (ctx : List String) (store store' : List (String × String))
    (attempt allowed fuel : Nat) (hle : attempt ≤ allowed) (hnlt : ¬ attempt < allowed)
    (hfail : ¬ (attempt_grade env stepIdx attempt allowed instruction ctx).status = "Passed")
    (hpop : popDecision store (env.reqIdFor stepIdx attempt) = some ("PROCEED", store')) :
    runStepLoop env stepIdx agent instruction ctx store attempt allowed (fuel + 1)
      = ⟨.complete, ctx ++ [attempt_result env stepIdx attempt instruction ctx], store',
          escalation_events env stepIdx agent instruction ctx attempt allowed "PROCEED"
            ++ [ send_terminal_log "System"
                   "User authorized proceeding with current output.",
                 send_system_log "● OUTPUT",
                 send_terminal_log agent.role
                   (attempt_result env stepIdx attempt instruction ctx),
                 send_system_log "● ACTION" ],
          attempt, allowed⟩ := by
  simp [runStepLoop, hle, hnlt, hfail, hpop, escalation_events]

/-- Attempts exhausted, decision `IGNORE`: the step completes with
nothing appended. -/
lemma runStepLoop_decided_ignore (env : Env) (stepIdx : Nat) (agent : Agent)
    (instruction : String) (ctx : List String) (store store' : List (String × String))
    (attempt allowed fuel : Nat) (hle : attempt ≤ allowed) (hnlt : ¬ attempt < allowed)
    (hfail : ¬ (attempt_grade env stepIdx attempt allowed instruction ctx).status = "Passed")
    (hpop : popDecision store (env.reqIdFor stepIdx attempt) = some ("IGNORE", store')) :
    runStepLoop env stepIdx agent instruction ctx store attempt allowed (fuel + 1)
      = ⟨.complete, ctx, store',
          escalation_events env stepIdx agent instruction ctx attempt allowed "IGNORE"
            ++ [send_terminal_log "System" "User chose to ignore this step."],
          attempt, allowed⟩ := by
  simp [runStepLoop, hle, hnlt, hfail, hpop, escalation_events]

/-- Attempts exhausted, decision `RETRY`: two extra attempts are granted,
the attempt counter advances by one, and the loop resumes. -/
lemma runStepLoop_decided_retry (env : Env) (stepIdx : Nat) (agent : Agent)
    (instruction : String) (ctx : List String) (store store' : List (String × String))
    (attempt allowed fuel : Nat) (hle : attempt ≤ allowed) (hnlt : ¬ attempt < allowed)
    (hfail : ¬ (attempt_grade env stepIdx attempt allowed instruction ctx).status = "Passed")
    (hpop : popDecision store (env.reqIdFor stepIdx attempt) = some ("RETRY", store')) :
    runStepLoop env stepIdx agent instruction ctx store attempt allowed (fuel + 1)
      = StepRun.prepend
          (escalation_events env stepIdx agent instruction ctx attempt allowed "RETRY"
            ++ [send_terminal_log "System" "User granted 2 extra attempts."])
          (runStepLoop env stepIdx agent instruction ctx store'
            (attempt + 1) (allowed + 2) fuel) := by
  simp [runStepLoop, hle, hnlt, hfail, hpop, escalation_events]

/-- Attempts exhausted, decision `CANCEL`: the mission loop returns. -/
lemma runStepLoop_decided_cancel (env : Env) (stepIdx : Nat) (agent : Agent)
    (instruction : String) (ctx : List String) (store store' : List (String × String))
    (attempt allowed fuel : Nat) (hle : attempt ≤ allowed) (hnlt : ¬ attempt < allowed)
    (hfail : ¬ (attempt_grade env stepIdx attempt allowed instruction ctx).status = "Passed")
    (hpop : popDecision store (env.reqIdFor stepIdx attempt) = some ("CANCEL", store')) :
    runStepLoop env stepIdx agent instruction ctx store attempt allowed (fuel + 1)
      = ⟨.cancelled, ctx, store',
          escalation_events env stepIdx agent instruction ctx attempt allowed "CANCEL"
            ++ [send_system_log "Mission Cancelled by User."],
          attempt, allowed⟩ := by
  simp [runStepLoop, hle, hnlt, hfail, hpop, escalation_events]

/-- Attempts exhausted, unrecognized decision: the step is marked
complete with nothing appended (the source's final `else`). -/
lemma runStepLoop_decided_default (env : Env) (stepIdx : Nat) (agent : Agent)
    (instruction : String) (ctx : List String) (store store' : List (String × String))
    (attempt allowed fuel : Nat) (action : String)
    (hle : attempt ≤ allowed) (hnlt : ¬ attempt < allowed)
    (hfail : ¬ (attempt_grade env stepIdx attempt allowed instruction ctx).status = "Passed")
    (hpop : popDecision store (env.reqIdFor stepIdx attempt) = some (action, store'))
    (h1 : action ≠ "PROCEED") (h2 : action ≠ "IGNORE") (h3 : action ≠ "RETRY")
    (h4 : action ≠ "CANCEL") :
    runStepLoop env stepIdx agent instruction ctx store attempt allowed (fuel + 1)
      = ⟨.complete, ctx, store',
          escalation_events env stepIdx agent instruction ctx attempt allowed action,
          attempt, allowed⟩ := by
  simp [runStepLoop, hle, hnlt, hfail, hpop, h1, h2, h3, h4, escalation_events]

/-- Loop condition false: the while loop exits without completing. -/
lemma runStepLoop_whileExit (env : Env) (stepIdx : Nat) (agent : Agent)
    (instruction : String) (ctx : List String) (store : List (String × String))
    (attempt allowed fuel : Nat) (hnle : ¬ attempt ≤ allowed) :
    runStepLoop env stepIdx agent instruction ctx store attempt allowed (fuel + 1)
      = ⟨.whileExit, ctx, store, [], attempt, allowed⟩ := by
  simp [runStepLoop, hnle]

/-! ## Event bookkeeping -/

lemma iter_events_countP_interventionReq (env : Env) (stepIdx : Nat) (agent : Agent)
    (instruction : String) (ctx : List String) (attempt allowed : Nat) :
    (iter_events env stepIdx agent instruction ctx attempt allowed).countP
      Event.isInterventionReq = 0 := by
  simp [iter_events, send_terminal_log, Event.isInterventionReq, List.countP_cons]

lemma iter_events_countP_retry (env : Env) (stepIdx : Nat) (agent : Agent)
    (instruction : String) (ctx : List String) (attempt allowed : Nat) :
    (iter_events env stepIdx agent instruction ctx attempt allowed).countP
      Event.isRetryConsumed = 0 := by
  simp [iter_events, send_terminal_log, Event.isRetryConsumed, List.countP_cons]

lemma iter_events_countP_decision (env : Env) (stepIdx : Nat) (agent : Agent)
    (instruction : String) (ctx : List String) (attempt allowed : Nat) :
    (iter_events env stepIdx agent instruction ctx attempt allowed).countP
      Event.isDecisionConsumed = 0 := by
  simp [iter_events, send_terminal_log, Event.isDecisionConsumed, List.countP_cons]

lemma escalation_events_countP_interventionReq (env : Env) (stepIdx : Nat) (agent : Agent)
    (instruction : String) (ctx : List String) (attempt allowed : Nat) (action : String) :
    (escalation_events env stepIdx agent instruction ctx attempt allowed action).countP
      Event.isInterventionReq = 1 := by
  simp [escalation_events, iter_events, intervention_request, send_terminal_log,
    Event.isInterventionReq, List.countP_cons, List.countP_append]

lemma escalation_events_countP_decision (env : Env) (stepIdx : Nat) (agent : Agent)
    (instruction : String) (ctx : List String) (attempt allowed : Nat) (action : String) :
    (escalation_events env stepIdx agent instruction ctx attempt allowed action).countP
      Event.isDecisionConsumed = 1 := by
  simp [escalation_events, iter_events, intervention_request, send_terminal_log,
    Event.isDecisionConsumed, List.countP_cons, List.countP_append]

lemma escalation_events_countP_retry (env : Env) (stepIdx : Nat) (agent : Agent)
    (instruction : String) (ctx : List String) (attempt allowed : Nat) (action : String) :
    (escalation_events env stepIdx agent instruction ctx attempt allowed action).countP
      Event.isRetryConsumed = if action = "RETRY" then 1 else 0 := by
  simp [escalation_events, iter_events, intervention_request, send_terminal_log,
    Event.isRetryConsumed, List.countP_cons, List.countP_append]

lemma iter_events_filterMap_loopIter (env : Env) (stepIdx : Nat) (agent : Agent)
    (instruction : String) (ctx : List String) (attempt allowed : Nat) :
    (iter_events env stepIdx agent instruction ctx attempt allowed).filterMap
      loopIterAttempt = [attempt] := by
  simp [iter_events, send_terminal_log, loopIterAttempt]

lemma escalation_events_filterMap_loopIter (env : Env) (stepIdx : Nat) (agent : Agent)
    (instruction : String) (ctx : List String) (attempt allowed : Nat) (action : String) :
    (escalation_events env stepIdx agent instruction ctx attempt allowed action).filterMap
      loopIterAttempt = [attempt] := by
  simp [escalation_events, iter_events, intervention_request, send_terminal_log,
    loopIterAttempt]

lemma iter_events_workerCallIdx (env : Env) (stepIdx : Nat) (agent : Agent)
    (instruction : String) (ctx : List String) (attempt allowed : Nat) :
    ∀ e ∈ iter_events env stepIdx agent instruction ctx attempt allowed,
      ∀ j, workerCallIdx e = some j → j = stepIdx := by
  intro e he j hj
  simp only [iter_events, send_terminal_log, List.mem_cons, List.not_mem_nil,
    or_false] at he
  rcases he with rfl | rfl | rfl | rfl | rfl <;> simp [workerCallIdx] at hj
  exact hj.symm

/-! ## Fuel inductions over the step controller -/

/-- The final attempts-allowed counter equals the initial one plus two
per consumed RETRY decision, in every run of the step controller. -/
lemma runStepLoop_finalAllowed (env : Env) (stepIdx : Nat) (agent : Agent)
    (instruction : String) : ∀ (fuel : Nat) (ctx : List String)
    (store : List (String × String)) (attempt allowed : Nat),
    (runStepLoop env stepIdx agent instruction ctx store attempt allowed fuel).finalAllowed
      = allowed + 2 * ((runStepLoop env stepIdx agent instruction ctx store attempt allowed
          fuel).events.countP Event.isRetryConsumed) := by
  intro fuel
  induction fuel with
  | zero =>
      intro ctx store attempt allowed
      simp [runStepLoop]
  | succ fuel ih =>
      intro ctx store attempt allowed
      by_cases hle : attempt ≤ allowed
      · by_cases hpass :
            (attempt_grade env stepIdx attempt allowed instruction ctx).status = "Passed"
        · rw [runStepLoop_passed env stepIdx agent instruction ctx store attempt allowed
            fuel hle hpass]
          simp [List.countP_append, iter_events_countP_retry, send_system_log,
            send_terminal_log, Event.isRetryConsumed, List.countP_cons]
        · by_cases hlt : attempt < allowed
          · rw [runStepLoop_failed_next env stepIdx agent instruction ctx store attempt
              allowed fuel hlt hpass]
            simpa [StepRun.prepend, List.countP_append, iter_events_countP_retry,
              send_terminal_log, Event.isRetryConsumed, List.countP_cons]
              using ih ctx store (attempt + 1) allowed
          · cases hpop : popDecision store (env.reqIdFor stepIdx attempt) with
            | none =>
                rw [runStepLoop_exhausted_blocked env stepIdx agent instruction ctx store
                  attempt allowed fuel hle hlt hpass hpop]
                simp [List.countP_append, iter_events_countP_retry, intervention_request,
                  Event.isRetryConsumed, List.countP_cons]
            | some pr =>
                obtain ⟨action, store'⟩ := pr
                by_cases h1 : action = "PROCEED"
                · subst h1
                  rw [runStepLoop_decided_proceed env stepIdx agent instruction ctx store
                    store' attempt allowed fuel hle hlt hpass hpop]
                  simp [List.countP_append, escalation_events_countP_retry,
                    send_system_log, send_terminal_log, Event.isRetryConsumed,
                    List.countP_cons]
                · by_cases h2 : action = "IGNORE"
                  · subst h2
                    rw [runStepLoop_decided_ignore env stepIdx agent instruction ctx store
                      store' attempt allowed fuel hle hlt hpass hpop]
                    simp [List.countP_append, escalation_events_countP_retry,
                      send_terminal_log, Event.isRetryConsumed, List.countP_cons]
                  · by_cases h3 : action = "RETRY"
                    · subst h3
                      rw [runStepLoop_decided_retry env stepIdx agent instruction ctx store
                        store' attempt allowed fuel hle hlt hpass hpop]
                      have h := ih ctx store' (attempt + 1) (allowed + 2)
                      simp [StepRun.prepend, List.countP_append,
                        escalation_events_countP_retry, send_terminal_log,
                        Event.isRetryConsumed, List.countP_cons]
                      omega
                    · by_cases h4 : action = "CANCEL"
                      · subst h4
                        rw [runStepLoop_decided_cancel env stepIdx agent instruction ctx
                          store store' attempt allowed fuel hle hlt hpass hpop]
                        simp [List.countP_append, escalation_events_countP_retry,
                          send_system_log, Event.isRetryConsumed, List.countP_cons]
                      · rw [runStepLoop_decided_default env stepIdx agent instruction ctx
                          store store' attempt allowed fuel action hle hlt hpass hpop
                          h1 h2 h3 h4]
                        simp [escalation_events_countP_retry, h3]
      · rw [runStepLoop_whileExit env stepIdx agent instruction ctx store attempt allowed
          fuel hle]
        simp

/-- The attempt counters recorded at successive loop iterations form a
non-decreasing sequence, all bounded below by the starting attempt. -/
lemma runStepLoop_attempts_chain (env : Env) (stepIdx : Nat) (agent : Agent)
    (instruction : String) : ∀ (fuel : Nat) (ctx : List String)
    (store : List (String × String)) (attempt allowed : Nat),
    List.Chain' (· ≤ ·) ((runStepLoop env stepIdx agent instruction ctx store attempt
        allowed fuel).events.filterMap loopIterAttempt)
    ∧ ∀ x ∈ (runStepLoop env stepIdx agent instruction ctx store attempt allowed
        fuel).events.filterMap loopIterAttempt, attempt ≤ x := by
  intro fuel
  induction fuel with
  | zero =>
      intro ctx store attempt allowed
      simp [runStepLoop]
  | succ fuel ih =>
      intro ctx store attempt allowed
      by_cases hle : attempt ≤ allowed
      · by_cases hpass :
            (attempt_grade env stepIdx attempt allowed instruction ctx).status = "Passed"
        · rw [runStepLoop_passed env stepIdx agent instruction ctx store attempt allowed
            fuel hle hpass]
          simp [List.filterMap_append, iter_events_filterMap_loopIter, send_system_log,
            send_terminal_log, loopIterAttempt]
        · by_cases hlt : attempt < allowed
          · rw [runStepLoop_failed_next env stepIdx agent instruction ctx store attempt
              allowed fuel hlt hpass]
            have h := ih ctx store (attempt + 1) allowed
            simp only [StepRun.prepend, List.filterMap_append,
              iter_events_filterMap_loopIter, send_terminal_log, loopIterAttempt,
              List.filterMap_cons, List.filterMap_nil] at h ⊢
            refine ⟨List.chain'_cons'.mpr ⟨fun y hy => ?_, h.1⟩, ?_⟩
            · exact le_trans (Nat.le_succ attempt)
                (h.2 y (List.mem_of_mem_head? hy))
            · intro x hx
              rcases List.mem_cons.mp hx with rfl | hx
              · exact le_refl x
              · exact le_trans (Nat.le_succ attempt) (h.2 x hx)
          · cases hpop : popDecision store (env.reqIdFor stepIdx attempt) with
            | none =>
                rw [runStepLoop_exhausted_blocked env stepIdx agent instruction ctx store
                  attempt allowed fuel hle hlt hpass hpop]
                simp [List.filterMap_append, iter_events_filterMap_loopIter,
                  intervention_request, loopIterAttempt]
            | some pr =>
                obtain ⟨action, store'⟩ := pr
                by_cases h1 : action = "PROCEED"
                · subst h1
                  rw [runStepLoop_decided_proceed env stepIdx agent instruction ctx store
                    store' attempt allowed fuel hle hlt hpass hpop]
                  simp [List.filterMap_append, escalation_events_filterMap_loopIter,
                    send_system_log, send_terminal_log, loopIterAttempt]
                · by_cases h2 : action = "IGNORE"
                  · subst h2
                    rw [runStepLoop_decided_ignore env stepIdx agent instruction ctx store
                      store' attempt allowed fuel hle hlt hpass hpop]
                    simp [List.filterMap_append, escalation_events_filterMap_loopIter,
                      send_terminal_log, loopIterAttempt]
                  · by_cases h3 : action = "RETRY"
                    · subst h3
                      rw [runStepLoop_decided_retry env stepIdx agent instruction ctx store
                        store' attempt allowed fuel hle hlt hpass hpop]
                      have h := ih ctx store' (attempt + 1) (allowed + 2)
                      simp only [StepRun.prepend, List.filterMap_append,
                        escalation_events_filterMap_loopIter, send_terminal_log,
                        loopIterAttempt, List.filterMap_cons, List.filterMap_nil] at h ⊢
                      refine ⟨List.chain'_cons'.mpr ⟨fun y hy => ?_, h.1⟩, ?_⟩
                      · exact le_trans (Nat.le_succ attempt)
                          (h.2 y (List.mem_of_mem_head? hy))
                      · intro x hx
                        rcases List.mem_cons.mp hx with rfl | hx
                        · exact le_refl x
                        · exact le_trans (Nat.le_succ attempt) (h.2 x hx)
                    · by_cases h4 : action = "CANCEL"
                      · subst h4
                        rw [runStepLoop_decided_cancel env stepIdx agent instruction ctx
                          store store' attempt allowed fuel hle hlt hpass hpop]
                        simp [List.filterMap_append, escalation_events_filterMap_loopIter,
                          send_system_log, loopIterAttempt]
                      · rw [runStepLoop_decided_default env stepIdx agent instruction ctx
                          store store' attempt allowed fuel action hle hlt hpass hpop
                          h1 h2 h3 h4]
                        simp [escalation_events_filterMap_loopIter]
      · rw [runStepLoop_whileExit env stepIdx agent instruction ctx store attempt allowed
          fuel hle]
        simp

/-- Every worker invocation recorded during one step's run carries that
step's plan position. -/
lemma runStepLoop_workerCalls_local (env : Env) (stepIdx : Nat) (agent : Agent)
    (instruction : String) : ∀ (fuel : Nat) (ctx : List String)
    (store : List (String × String)) (attempt allowed : Nat),
    ∀ e ∈ (runStepLoop env stepIdx agent instruction ctx store attempt allowed fuel).events,
      ∀ j, workerCallIdx e = some j → j = stepIdx := by
  intro fuel
  induction fuel with
  | zero =>
      intro ctx store attempt allowed e he
      simp [runStepLoop] at he
  | succ fuel ih =>
      intro ctx store attempt allowed e he j hj
      by_cases hle : attempt ≤ allowed
      · by_cases hpass :
            (attempt_grade env stepIdx attempt allowed instruction ctx).status = "Passed"
        · rw [runStepLoop_passed env stepIdx agent instruction ctx store attempt allowed
            fuel hle hpass] at he
          rcases List.mem_append.mp he with h | h
          · exact iter_events_workerCallIdx env stepIdx agent instruction ctx attempt
              allowed e h j hj
          · simp only [send_system_log, send_terminal_log, List.mem_cons,
              List.not_mem_nil, or_false] at h
            rcases h with rfl | rfl | rfl <;> simp [workerCallIdx] at hj
        · by_cases hlt : attempt < allowed
          · rw [runStepLoop_failed_next env stepIdx agent instruction ctx store attempt
              allowed fuel hlt hpass] at he
            simp only [StepRun.prepend, List.append_assoc] at he
            rcases List.mem_append.mp he with h | h
            · exact iter_events_workerCallIdx env stepIdx agent instruction ctx attempt
                allowed e h j hj
            · rcases List.mem_append.mp h with h | h
              · simp only [send_terminal_log, List.mem_cons, List.not_mem_nil,
                  or_false] at h
                subst h; simp [workerCallIdx] at hj
              · exact ih ctx store (attempt + 1) allowed e h j hj
          · cases hpop : popDecision store (env.reqIdFor stepIdx attempt) with
            | none =>
                rw [runStepLoop_exhausted_blocked env stepIdx agent instruction ctx store
                  attempt allowed fuel hle hlt hpass hpop] at he
                rcases List.mem_append.mp he with h | h
                · exact iter_events_workerCallIdx env stepIdx agent instruction ctx attempt
                    allowed e h j hj
                · simp only [intervention_request, List.mem_cons, List.not_mem_nil,
                    or_false] at h
                  subst h; simp [workerCallIdx] at hj
            | some pr =>
                obtain ⟨action, store'⟩ := pr
                have hesc : ∀ e' ∈ escalation_events env stepIdx agent instruction ctx
                    attempt allowed action, ∀ j', workerCallIdx e' = some j' →
                    j' = stepIdx := by
                  intro e' he' j' hj'
                  rcases List.mem_append.mp he' with h | h
                  · exact iter_events_workerCallIdx env stepIdx agent instruction ctx
                      attempt allowed e' h j' hj'
                  · simp only [intervention_request, List.mem_cons, List.not_mem_nil,
                      or_false] at h
                    rcases h with rfl | rfl <;> simp [workerCallIdx] at hj'
                by_cases h1 : action = "PROCEED"
                · subst h1
                  rw [runStepLoop_decided_proceed env stepIdx agent instruction ctx store
                    store' attempt allowed fuel hle hlt hpass hpop] at he
                  rcases List.mem_append.mp he with h | h
                  · exact hesc e h j hj
                  · simp only [send_system_log, send_terminal_log, List.mem_cons,
                      List.not_mem_nil, or_false] at h
                    rcases h with rfl | rfl | rfl | rfl <;> simp [workerCallIdx] at hj
                · by_cases h2 : action = "IGNORE"
                  · subst h2
                    rw [runStepLoop_decided_ignore env stepIdx agent instruction ctx store
                      store' attempt allowed fuel hle hlt hpass hpop] at he
                    rcases List.mem_append.mp he with h | h
                    · exact hesc e h j hj
                    · simp only [send_terminal_log, List.mem_cons, List.not_mem_nil,
                        or_false] at h
                      subst h; simp [workerCallIdx] at hj
                  · by_cases h3 : action = "RETRY"
                    · subst h3
                      rw [runStepLoop_decided_retry env stepIdx agent instruction ctx store
                        store' attempt allowed fuel hle hlt hpass hpop] at he
                      simp only [StepRun.prepend, List.append_assoc] at he
                      rcases List.mem_append.mp he with h | h
                      · exact hesc e h j hj
                      · rcases List.mem_append.mp h with h | h
                        · simp only [send_terminal_log, List.mem_cons, List.not_mem_nil,
                            or_false] at h
                          subst h; simp [workerCallIdx] at hj
                        · exact ih ctx store' (attempt + 1) (allowed + 2) e h j hj
                    · by_cases h4 : action = "CANCEL"
                      · subst h4
                        rw [runStepLoop_decided_cancel env stepIdx agent instruction ctx
                          store store' attempt allowed fuel hle hlt hpass hpop] at he
                        rcases List.mem_append.mp he with h | h
                        · exact hesc e h j hj
                        · simp only [send_system_log, List.mem_cons, List.not_mem_nil,
                            or_false] at h
                          subst h; simp [workerCallIdx] at hj
                      · rw [runStepLoop_decided_default env stepIdx agent instruction ctx
                          store store' attempt allowed fuel action hle hlt hpass hpop
                          h1 h2 h3 h4] at he
                        exact hesc e he j hj
      · rw [runStepLoop_whileExit env stepIdx agent instruction ctx store attempt allowed
          fuel hle] at he
        simp at he

/-! ## Mission-level lemmas -/

/-- A mission that ends `cancelledBy k` started the cancelled step at or
after its own first step, and every worker invocation in its trace
belongs to a step at position at most `k`. -/
lemma runMissionSteps_cancelled_bound (env : Env) (m : List (String × Agent)) :
    ∀ (plan : List Step) (stepIdx : Nat) (ctx : List String)
      (store : List (String × String)) (fuel k : Nat),
      (runMissionSteps env m plan stepIdx ctx store fuel).outcome
        = .cancelledBy k →
      stepIdx ≤ k ∧ ∀ e ∈ (runMissionSteps env m plan stepIdx ctx store fuel).events,
        ∀ j, workerCallIdx e = some j → j ≤ k := by
  intro plan
  induction plan with
  | nil =>
      intro stepIdx ctx store fuel k h
      simp [runMissionSteps] at h
  | cons step rest ihp =>
      intro stepIdx ctx store fuel k h
      cases hla : lookup_agent m step.agentId with
      | none =>
          simp [runMissionSteps, hla] at h
      | some agent =>
          simp only [runMissionSteps, hla] at h ⊢
          cases hro : (runStepLoop env stepIdx agent (step.instruction.getD "") ctx store
              1 3 fuel).outcome with
          | complete =>
              simp only [hro] at h ⊢
              obtain ⟨hk, hb⟩ := ihp (stepIdx + 1)
                (runStepLoop env stepIdx agent (step.instruction.getD "") ctx store
                  1 3 fuel).ctx
                (runStepLoop env stepIdx agent (step.instruction.getD "") ctx store
                  1 3 fuel).store fuel k h
              refine ⟨by omega, ?_⟩
              intro e he j hj
              rcases List.mem_append.mp he with h' | h'
              · have := runStepLoop_workerCalls_local env stepIdx agent
                  (step.instruction.getD "") fuel ctx store 1 3 e h' j hj
                omega
              · exact hb e h' j hj
          | whileExit =>
              simp only [hro] at h ⊢
              obtain ⟨hk, hb⟩ := ihp (stepIdx + 1)
                (runStepLoop env stepIdx agent (step.instruction.getD "") ctx store
                  1 3 fuel).ctx
                (runStepLoop env stepIdx agent (step.instruction.getD "") ctx store
                  1 3 fuel).store fuel k h
              refine ⟨by omega, ?_⟩
              intro e he j hj
              rcases List.mem_append.mp he with h' | h'
              · have := runStepLoop_workerCalls_local env stepIdx agent
                  (step.instruction.getD "") fuel ctx store 1 3 e h' j hj
                omega
              · exact hb e h' j hj
          | cancelled =>
              simp only [hro] at h ⊢
              have hk : stepIdx = k := by
                simpa using h
              subst hk
              refine ⟨le_refl _, ?_⟩
              intro e he j hj
              have := runStepLoop_workerCalls_local env stepIdx agent
                (step.instruction.getD "") fuel ctx store 1 3 e he j hj
              omega
          | blocked => simp [hro] at h
          | fuelOut => simp [hro] at h

/-- With a non-empty worker pool, the agent lookup always succeeds (the
fallback takes the first pool entry), so the `IndexError` branch is
unreachable. -/
lemma lookup_agent_nonempty (p : String × Agent) (ps : List (String × Agent))
    (aid : Option String) : ∃ a, lookup_agent (p :: ps) aid = some a := by
  unfold lookup_agent
  cases hg : agents_get (p :: ps) aid with
  | some a => exact ⟨a, rfl⟩
  | none => exact ⟨p.2, by simp⟩

/-- With a non-empty pool, no mission run ends in the lookup-error
state. -/
lemma runMissionSteps_no_lookup_error (env : Env) (p : String × Agent)
    (ps : List (String × Agent)) :
    ∀ (plan : List Step) (stepIdx : Nat) (ctx : List String)
      (store : List (String × String)) (fuel i : Nat),
      (runMissionSteps env (p :: ps) plan stepIdx ctx store fuel).outcome
        ≠ .agentLookupError i := by
  intro plan
  induction plan with
  | nil =>
      intro stepIdx ctx store fuel i
      simp [runMissionSteps]
  | cons step rest ihp =>
      intro stepIdx ctx store fuel i h
      obtain ⟨agent, hla⟩ := lookup_agent_nonempty p ps step.agentId
      simp only [runMissionSteps, hla] at h
      cases hro : (runStepLoop env stepIdx agent (step.instruction.getD "") ctx store
          1 3 fuel).outcome with
      | complete =>
          simp only [hro] at h
          exact ihp (stepIdx + 1) _ _ fuel i h
      | whileExit =>
          simp only [hro] at h
          exact ihp (stepIdx + 1) _ _ fuel i h
      | cancelled => simp [hro] at h
      | blocked => simp [hro] at h
      | fuelOut => simp [hro] at h

/-- Looking up the key of the first pool entry finds that entry. -/
lemma lookup_agent_first (k : String) (a : Agent) (rest : List (String × Agent)) :
    lookup_agent ((k, a) :: rest) (some k) = some a := by
  simp [lookup_agent, agents_get, List.find?_cons_of_pos]

/-- Grades produced from a failed evaluation call are Failed. -/
lemma attempt_grade_err (env : Env) (stepIdx attempt allowed : Nat) (instruction : String)
    (ctx : List String) (h : env.evalCall stepIdx attempt = .err) :
    attempt_grade env stepIdx attempt allowed instruction ctx
      = ⟨0, base_threshold attempt, "Failed", "Error during grading."⟩ := by
  simp [attempt_grade, evaluate_output, h]

lemma failed_ne_passed : ("Failed" : String) ≠ "Passed" := by decide

/-! ## Claims -/

/-- **C1, counterexample.** The claim says a malformed grade payload —
including one whose score is merely missing — always yields status
Failed with the attempt's base threshold.  But when the LLM reply parses
as JSON, `evaluate_output` takes `status` and `threshold` from the
payload regardless of the missing score: a payload with no score,
threshold 50 and status "Passed" produces a Passed grade with score
coerced to 0 and threshold 50 ≠ 85. -/
theorem c1_counterexample_missing_score_can_pass :
    (evaluate_output "i" "o" 1 3 (.ok ⟨none, some 50, some "Passed", none⟩)).status
        = "Passed"
    ∧ (evaluate_output "i" "o" 1 3 (.ok ⟨none, some 50, some "Passed", none⟩)).score = 0
    ∧ (evaluate_output "i" "o" 1 3 (.ok ⟨none, some 50, some "Passed", none⟩)).threshold
        ≠ base_threshold 1 :=
  ⟨rfl, rfl, by decide⟩

/-- **C1, amended.** When the underlying evaluation call raises (or its
reply fails to parse as JSON), `evaluate_output` returns a Failed —
never Passed — grade with score 0 and threshold equal to the base
threshold of the attempt.  When the reply parses, a missing score is
coerced to 0 and a missing status defaults to Failed, but a status
present in the payload is taken as-is. -/
theorem c1_fail_closed_on_eval_error (instruction output : String)
    (attempt max_attempts : Nat) (data : GradePayload) :
    ((evaluate_output instruction output attempt max_attempts .err).status = "Failed"
      ∧ (evaluate_output instruction output attempt max_attempts .err).status ≠ "Passed"
      ∧ (evaluate_output instruction output attempt max_attempts .err).score = 0
      ∧ (evaluate_output instruction output attempt max_attempts .err).threshold
          = base_threshold attempt)
    ∧ (data.score = none →
        (evaluate_output instruction output attempt max_attempts (.ok data)).score = 0)
    ∧ (data.status = none →
        (evaluate_output instruction output attempt max_attempts (.ok data)).status
          = "Failed") := by
  refine ⟨⟨rfl, failed_ne_passed, rfl, rfl⟩, fun h => ?_, fun h => ?_⟩
  · simp [evaluate_output, h]
  · simp [evaluate_output, h]

theorem c1_fail_closed_on_eval_error_witness :
    (evaluate_output "draft" "out" 2 3 (.ok ⟨none, none, none, none⟩)).score = 0
    ∧ (evaluate_output "draft" "out" 2 3 (.ok ⟨none, none, none, none⟩)).status
        = "Failed" := by
  have h := c1_fail_closed_on_eval_error "draft" "out" 2 3 ⟨none, none, none, none⟩
  exact ⟨h.2.1 rfl, h.2.2 rfl⟩

/-- **C4.** The base threshold is 85 for attempt 1, 75 for attempt 2 and
60 for every attempt ≥ 3, it is monotonically non-increasing in the
attempt number (from attempt 1 on), and it is what a failed evaluation
call reports as the grade's threshold. -/
theorem c4_threshold_schedule :
    base_threshold 1 = 85 ∧ base_threshold 2 = 75
    ∧ (∀ a, 3 ≤ a → base_threshold a = 60)
    ∧ (∀ a b, 1 ≤ a → a ≤ b → base_threshold b ≤ base_threshold a)
    ∧ ∀ instruction output a m,
        (evaluate_output instruction output a m .err).threshold = base_threshold a := by
  refine ⟨rfl, rfl, fun a ha => ?_, fun a b ha hab => ?_, fun _ _ _ _ => rfl⟩
  · unfold base_threshold
    split_ifs <;> omega
  · unfold base_threshold
    split_ifs <;> omega

theorem c4_threshold_schedule_witness :
    base_threshold 5 = 60 ∧ base_threshold 4 ≤ base_threshold 2 := by
  have h := c4_threshold_schedule
  exact ⟨h.2.2.1 5 (by omega), h.2.2.2.1 2 4 (by omega) (by omega)⟩

/-- **C3.** Inside the step controller an attempt is accepted exactly
when the grade's status string equals "Passed": if it does, the step
completes at once and the result is appended to the context — with no
condition on score versus threshold, so a Passed status with a
sub-threshold (or missing, coerced-to-0) score still completes the
step; if it does not, the loop moves on to the next attempt (or to
escalation) instead. -/
theorem c3_accept_iff_status_passed (env : Env) (stepIdx : Nat) (agent : Agent)
    (instruction : String) (ctx : List String) (store : List (String × String))
    (attempt allowed fuel : Nat) (hle : attempt ≤ allowed) :
    ((attempt_grade env stepIdx attempt allowed instruction ctx).status = "Passed" →
      runStepLoop env stepIdx agent instruction ctx store attempt allowed (fuel + 1)
        = ⟨.complete, ctx ++ [attempt_result env stepIdx attempt instruction ctx], store,
            iter_events env stepIdx agent instruction ctx attempt allowed
              ++ [ send_system_log "● OUTPUT",
                   send_terminal_log agent.role
                     (attempt_result env stepIdx attempt instruction ctx),
                   send_system_log "● ACTION" ],
            attempt, allowed⟩)
    ∧ (¬ (attempt_grade env stepIdx attempt allowed instruction ctx).status = "Passed" →
        attempt < allowed →
        runStepLoop env stepIdx agent instruction ctx store attempt allowed (fuel + 1)
          = StepRun.prepend
              (iter_events env stepIdx agent instruction ctx attempt allowed
                ++ [ send_terminal_log "Supervisor"
                      ("Feedback: " ++ (attempt_grade env stepIdx attempt allowed
                          instruction ctx).feedback) ])
              (runStepLoop env stepIdx agent instruction ctx store (attempt + 1)
                allowed fuel)) :=
  ⟨fun hpass => runStepLoop_passed env stepIdx agent instruction ctx store attempt allowed
      fuel hle hpass,
   fun hfail hlt => runStepLoop_failed_next env stepIdx agent instruction ctx store
      attempt allowed fuel hlt hfail⟩

theorem c3_accept_iff_status_passed_witness :
    (attempt_grade envPassLowScore 0 1 3 "t" []).score
        < (attempt_grade envPassLowScore 0 1 3 "t" []).threshold
    ∧ (runStepLoop envPassLowScore 0 ⟨"Writer"⟩ "t" [] [] 1 3 1).outcome = .complete
    ∧ (runStepLoop envPassLowScore 0 ⟨"Writer"⟩ "t" [] [] 1 3 1).ctx = ["OUT"] := by
  have h := (c3_accept_iff_status_passed envPassLowScore 0 ⟨"Writer"⟩ "t" [] [] 1 3 0
      (by omega)).1 rfl
  exact ⟨by decide, by rw [h], by rw [h]; rfl⟩

/-- **C6.** A step whose first attempt is graded Passed completes at
once: the execution context gains exactly the one entry equal to that
attempt's result, the pending store is untouched, and no intervention
request is ever created for the step. -/
theorem c6_first_attempt_pass (env : Env) (stepIdx : Nat) (agent : Agent)
    (instruction : String) (ctx : List String) (store : List (String × String))
    (fuel : Nat)
    (hpass : (attempt_grade env stepIdx 1 3 instruction ctx).status = "Passed") :
    (runStepLoop env stepIdx agent instruction ctx store 1 3 (fuel + 1)).outcome
        = .complete
    ∧ (runStepLoop env stepIdx agent instruction ctx store 1 3 (fuel + 1)).ctx
        = ctx ++ [attempt_result env stepIdx 1 instruction ctx]
    ∧ (runStepLoop env stepIdx agent instruction ctx store 1 3 (fuel + 1)).store = store
    ∧ ((runStepLoop env stepIdx agent instruction ctx store 1 3 (fuel + 1)).events.countP
        Event.isInterventionReq) = 0 := by
  rw [runStepLoop_passed env stepIdx agent instruction ctx store 1 3 fuel (by omega) hpass]
  refine ⟨rfl, rfl, rfl, ?_⟩
  simp [List.countP_append, iter_events_countP_interventionReq, send_system_log,
    send_terminal_log, Event.isInterventionReq, List.countP_cons]

theorem c6_first_attempt_pass_witness :
    (runStepLoop envAllPass 0 ⟨"Writer"⟩ "t" [] [] 1 3 1).outcome = .complete
    ∧ (runStepLoop envAllPass 0 ⟨"Writer"⟩ "t" [] [] 1 3 1).ctx = ["OUT"]
    ∧ ((runStepLoop envAllPass 0 ⟨"Writer"⟩ "t" [] [] 1 3 1).events.countP
        Event.isInterventionReq) = 0 := by
  have h := c6_first_attempt_pass envAllPass 0 ⟨"Writer"⟩ "t" [] [] 0 rfl
  refine ⟨h.1, ?_, h.2.2.2⟩
  rw [h.2.1]
  rfl

/-- **C2, code at the failing input.** A one-step plan whose every
evaluation fails and whose escalation decision carries the unrecognized
action "BOGUS": the final `else` of the decision dispatch marks the step
complete but, unlike the `PROCEED` branch ten lines above it, appends
nothing to the execution context — the same input with a `PROCEED`
decision ends with the failing result appended.  The unrecognized
decision therefore behaves like `Ignore` (the result is dropped), not
like `Proceed` as the code's own "Default to proceed" comment and the
spec state. -/
theorem c2_unrecognized_decision_drops_result :
    (run_mission_loop envAllFail [⟨some "w1", some "task"⟩] poolW
        [("r0_3", "BOGUS")] 10).outcome = .finished
    ∧ (run_mission_loop envAllFail [⟨some "w1", some "task"⟩] poolW
        [("r0_3", "BOGUS")] 10).ctx = []
    ∧ (run_mission_loop envAllFail [⟨some "w1", some "task"⟩] poolW
        [("r0_3", "PROCEED")] 10).outcome = .finished
    ∧ (run_mission_loop envAllFail [⟨some "w1", some "task"⟩] poolW
        [("r0_3", "PROCEED")] 10).ctx = ["OUT"] :=
  ⟨rfl, rfl, rfl, rfl⟩

/-- **C5, counterexample.** A step that fails all of its allowed
attempts can publish more than one intervention request: with the first
escalation answered `RETRY` and the renewed budget exhausted again, the
run publishes two requests and consumes two decisions. -/
theorem c5_counterexample_retry_two_requests :
    ((run_mission_loop envAllFail [⟨some "w1", some "task"⟩] poolW
        [("r0_3", "RETRY"), ("r0_5", "PROCEED")] 10).events.countP
          Event.isInterventionReq) = 2
    ∧ ((run_mission_loop envAllFail [⟨some "w1", some "task"⟩] poolW
        [("r0_3", "RETRY"), ("r0_5", "PROCEED")] 10).events.countP
          Event.isDecisionConsumed) = 2 :=
  ⟨rfl, rfl⟩

/-- **C5, amended.** Each time a step exhausts its (possibly
Retry-extended) attempt budget, one intervention request is published:
if no pending decision matches the generated request id, the step loop
blocks with context and store untouched and exactly one request
outstanding — and the mission loop does not advance past the step; if a
matching decision is pending and is not `RETRY`, the run publishes
exactly one request for the step and consumes exactly one decision,
removing it from the pending store (a `RETRY` answer can lead to a
further request later, as the counterexample shows).  The hypothesis is
only that every attempt's grade fails, however the grade was produced —
a raised evaluation call, an unparsable reply, or a well-formed parsed
grade whose status is Failed. -/
theorem c5_escalation_blocks_and_consumes_once (env : Env) (stepIdx : Nat) (agent : Agent)
    (instruction : String) (ctx : List String) (store store' : List (String × String))
    (fuel : Nat) (action : String)
    (hf : ∀ a al, ¬ (attempt_grade env stepIdx a al instruction ctx).status
        = "Passed") :
    (popDecision store (env.reqIdFor stepIdx 3) = none →
      (runStepLoop env stepIdx agent instruction ctx store 1 3 (fuel + 3)).outcome
          = .blocked
      ∧ (runStepLoop env stepIdx agent instruction ctx store 1 3 (fuel + 3)).ctx = ctx
      ∧ (runStepLoop env stepIdx agent instruction ctx store 1 3 (fuel + 3)).store = store
      ∧ ((runStepLoop env stepIdx agent instruction ctx store 1 3
            (fuel + 3)).events.countP Event.isInterventionReq) = 1)
    ∧ (popDecision store (env.reqIdFor stepIdx 3) = some (action, store') →
        action ≠ "RETRY" →
        ((runStepLoop env stepIdx agent instruction ctx store 1 3
            (fuel + 3)).events.countP Event.isInterventionReq) = 1
        ∧ ((runStepLoop env stepIdx agent instruction ctx store 1 3
            (fuel + 3)).events.countP Event.isDecisionConsumed) = 1
        ∧ (runStepLoop env stepIdx agent instruction ctx store 1 3 (fuel + 3)).store
            = store')
    ∧ (popDecision store (env.reqIdFor stepIdx 3) = none →
        ∀ (m : List (String × Agent)) (step : Step) (rest : List Step),
          lookup_agent m step.agentId = some agent →
          step.instruction = some instruction →
          (runMissionSteps env m (step :: rest) stepIdx ctx store (fuel + 3)).outcome
            = .blockedAt stepIdx) := by
  refine ⟨fun hpop => ?_, fun hpop hne => ?_, fun hpop m step rest hla hinstr => ?_⟩
  · rw [show fuel + 3 = fuel + 2 + 1 from rfl,
      runStepLoop_failed_next env stepIdx agent instruction ctx store 1 3 (fuel + 2)
        (by omega) (hf 1 3),
      show fuel + 2 = fuel + 1 + 1 from rfl,
      runStepLoop_failed_next env stepIdx agent instruction ctx store 2 3 (fuel + 1)
        (by omega) (hf 2 3),
      runStepLoop_exhausted_blocked env stepIdx agent instruction ctx store 3 3 fuel
        (by omega) (by omega) (hf 3 3) hpop]
    refine ⟨rfl, rfl, rfl, ?_⟩
    simp [StepRun.prepend, List.countP_append, iter_events_countP_interventionReq,
      send_terminal_log, Event.isInterventionReq, List.countP_cons, intervention_request]
  · rw [show fuel + 3 = fuel + 2 + 1 from rfl,
      runStepLoop_failed_next env stepIdx agent instruction ctx store 1 3 (fuel + 2)
        (by omega) (hf 1 3),
      show fuel + 2 = fuel + 1 + 1 from rfl,
      runStepLoop_failed_next env stepIdx agent instruction ctx store 2 3 (fuel + 1)
        (by omega) (hf 2 3)]
    by_cases h1 : action = "PROCEED"
    · subst h1
      rw [runStepLoop_decided_proceed env stepIdx agent instruction ctx store store' 3 3
        fuel (by omega) (by omega) (hf 3 3) hpop]
      refine ⟨?_, ?_, rfl⟩ <;>
        simp [StepRun.prepend, List.countP_append, iter_events_countP_interventionReq,
          iter_events_countP_decision, escalation_events_countP_interventionReq,
          escalation_events_countP_decision, send_terminal_log, send_system_log,
          Event.isInterventionReq, Event.isDecisionConsumed, List.countP_cons]
    · by_cases h2 : action = "IGNORE"
      · subst h2
        rw [runStepLoop_decided_ignore env stepIdx agent instruction ctx store store' 3 3
          fuel (by omega) (by omega) (hf 3 3) hpop]
        refine ⟨?_, ?_, rfl⟩ <;>
          simp [StepRun.prepend, List.countP_append, iter_events_countP_interventionReq,
            iter_events_countP_decision, escalation_events_countP_interventionReq,
            escalation_events_countP_decision, send_terminal_log,
            Event.isInterventionReq, Event.isDecisionConsumed, List.countP_cons]
      · by_cases h4 : action = "CANCEL"
        · subst h4
          rw [runStepLoop_decided_cancel env stepIdx agent instruction ctx store store' 3 3
            fuel (by omega) (by omega) (hf 3 3) hpop]
          refine ⟨?_, ?_, rfl⟩ <;>
            simp [StepRun.prepend, List.countP_append, iter_events_countP_interventionReq,
              iter_events_countP_decision, escalation_events_countP_interventionReq,
              escalation_events_countP_decision, send_terminal_log, send_system_log,
              Event.isInterventionReq, Event.isDecisionConsumed, List.countP_cons]
        · rw [runStepLoop_decided_default env stepIdx agent instruction ctx store store' 3 3
            fuel action (by omega) (by omega) (hf 3 3) hpop h1 h2 hne h4]
          refine ⟨?_, ?_, rfl⟩ <;>
            simp [StepRun.prepend, List.countP_append, iter_events_countP_interventionReq,
              iter_events_countP_decision, escalation_events_countP_interventionReq,
              escalation_events_countP_decision, send_terminal_log,
              Event.isInterventionReq, Event.isDecisionConsumed, List.countP_cons]
  · have hblocked : (runStepLoop env stepIdx agent instruction ctx store 1 3
        (fuel + 3)).outcome = .blocked := by
      rw [show fuel + 3 = fuel + 2 + 1 from rfl,
        runStepLoop_failed_next env stepIdx agent instruction ctx store 1 3 (fuel + 2)
          (by omega) (hf 1 3),
        show fuel + 2 = fuel + 1 + 1 from rfl,
        runStepLoop_failed_next env stepIdx agent instruction ctx store 2 3 (fuel + 1)
          (by omega) (hf 2 3),
        runStepLoop_exhausted_blocked env stepIdx agent instruction ctx store 3 3 fuel
          (by omega) (by omega) (hf 3 3) hpop]
      rfl
    simp only [runMissionSteps, hla, hinstr, Option.getD_some]
    simp [hblocked]

theorem c5_escalation_blocks_and_consumes_once_witness :
    (runStepLoop envScore50 0 ⟨"Writer"⟩ "t" [] [] 1 3 4).outcome = .blocked
    ∧ ((runStepLoop envScore50 0 ⟨"Writer"⟩ "t" [] [("r0_3", "PROCEED")] 1 3
        4).events.countP Event.isInterventionReq) = 1
    ∧ (runStepLoop envScore50 0 ⟨"Writer"⟩ "t" [] [("r0_3", "PROCEED")] 1 3 4).store
        = [] := by
  have h1 := (c5_escalation_blocks_and_consumes_once envScore50 0 ⟨"Writer"⟩ "t" [] [] []
    1 "PROCEED" (fun a al => failed_ne_passed)).1 rfl
  have h2 := (c5_escalation_blocks_and_consumes_once envScore50 0 ⟨"Writer"⟩ "t" []
    [("r0_3", "PROCEED")] [] 1 "PROCEED" (fun a al => failed_ne_passed)).2.1 rfl
    (by decide)
  exact ⟨h1.1, h2.1, h2.2.2⟩

/-- **C7.** A `RETRY` decision adds exactly 2 to the attempts-allowed
budget and exactly 1 to the current attempt, resuming the loop; over a
whole step run, the final budget equals the initial one plus 2 per
consumed `RETRY` decision; and the attempt counters recorded at the
successive loop iterations never decrease. -/
theorem c7_retry_adds_two_attempts (env : Env) (stepIdx : Nat) (agent : Agent)
    (instruction : String) :
    (∀ (ctx : List String) (store store' : List (String × String))
        (attempt allowed fuel : Nat), attempt ≤ allowed → ¬ attempt < allowed →
        ¬ (attempt_grade env stepIdx attempt allowed instruction ctx).status = "Passed" →
        popDecision store (env.reqIdFor stepIdx attempt) = some ("RETRY", store') →
        runStepLoop env stepIdx agent instruction ctx store attempt allowed (fuel + 1)
          = StepRun.prepend
              (escalation_events env stepIdx agent instruction ctx attempt allowed "RETRY"
                ++ [send_terminal_log "System" "User granted 2 extra attempts."])
              (runStepLoop env stepIdx agent instruction ctx store' (attempt + 1)
                (allowed + 2) fuel))
    ∧ (∀ (ctx : List String) (store : List (String × String)) (attempt allowed fuel : Nat),
        (runStepLoop env stepIdx agent instruction ctx store attempt allowed
            fuel).finalAllowed
          = allowed + 2 * ((runStepLoop env stepIdx agent instruction ctx store attempt
              allowed fuel).events.countP Event.isRetryConsumed))
    ∧ (∀ (ctx : List String) (store : List (String × String)) (attempt allowed fuel : Nat),
        List.Chain' (· ≤ ·) ((runStepLoop env stepIdx agent instruction ctx store attempt
            allowed fuel).events.filterMap loopIterAttempt)) :=
  ⟨fun ctx store store' attempt allowed fuel hle hnlt hfl hpop =>
      runStepLoop_decided_retry env stepIdx agent instruction ctx store store' attempt
        allowed fuel hle hnlt hfl hpop,
   fun ctx store attempt allowed fuel =>
      runStepLoop_finalAllowed env stepIdx agent instruction fuel ctx store attempt allowed,
   fun ctx store attempt allowed fuel =>
      (runStepLoop_attempts_chain env stepIdx agent instruction fuel ctx store attempt
        allowed).1⟩

theorem c7_retry_adds_two_attempts_witness :
    runStepLoop envAllFail 0 ⟨"Writer"⟩ "t" [] [("r0_3", "RETRY")] 3 3 1
      = StepRun.prepend
          (escalation_events envAllFail 0 ⟨"Writer"⟩ "t" [] 3 3 "RETRY"
            ++ [send_terminal_log "System" "User granted 2 extra attempts."])
          (runStepLoop envAllFail 0 ⟨"Writer"⟩ "t" [] [] 4 5 0)
    ∧ (runStepLoop envAllFail 0 ⟨"Writer"⟩ "t" [] [("r0_3", "RETRY")] 3 3 1).finalAllowed
        = 3 + 2 * ((runStepLoop envAllFail 0 ⟨"Writer"⟩ "t" [] [("r0_3", "RETRY")] 3 3
            1).events.countP Event.isRetryConsumed) := by
  have h := c7_retry_adds_two_attempts envAllFail 0 ⟨"Writer"⟩ "t"
  exact ⟨h.1 [] [("r0_3", "RETRY")] [] 3 3 0 (by omega) (by omega) (by decide) rfl,
    h.2.1 [] [("r0_3", "RETRY")] 3 3 1⟩

/-- **C8.** If the mission run ends cancelled at step `k` (the decision
consumed during step `k` was `CANCEL`), then every worker invocation in
the whole trace belongs to a step at position at most `k`: no worker is
ever invoked for steps `k+1..N`. -/
theorem c8_cancel_stops_mission (env : Env) (plan : List Step)
    (m : List (String × Agent)) (store : List (String × String)) (fuel k : Nat)
    (hc : (run_mission_loop env plan m store fuel).outcome = .cancelledBy k) :
    ∀ e ∈ (run_mission_loop env plan m store fuel).events, ∀ j,
      workerCallIdx e = some j → j ≤ k := by
  have h : (runMissionSteps env m plan 0 [] store fuel).outcome = .cancelledBy k := hc
  obtain ⟨-, hb⟩ := runMissionSteps_cancelled_bound env m plan 0 [] store fuel k h
  intro e he j hj
  have he' : e ∈ (send_system_log
      "Starting Execution: Flow optimization enabled. Supervisor (Gemini 2.5 Pro) ready."
        :: send_system_log "● ACTION"
        :: (runMissionSteps env m plan 0 [] store fuel).events) := he
  rcases List.mem_cons.mp he' with rfl | he'
  · simp [workerCallIdx, send_system_log] at hj
  · rcases List.mem_cons.mp he' with rfl | he'
    · simp [workerCallIdx, send_system_log] at hj
    · exact hb e he' j hj

theorem c8_cancel_stops_mission_witness :
    ((run_mission_loop envAllFail [⟨some "w1", some "a"⟩, ⟨some "w1", some "b"⟩] poolW
        [("r0_3", "CANCEL")] 10).events.countP Event.isWorkerCall) = 3
    ∧ ∀ e ∈ (run_mission_loop envAllFail [⟨some "w1", some "a"⟩, ⟨some "w1", some "b"⟩]
        poolW [("r0_3", "CANCEL")] 10).events, ∀ j, workerCallIdx e = some j → j ≤ 0 :=
  ⟨rfl, c8_cancel_stops_mission envAllFail
    [⟨some "w1", some "a"⟩, ⟨some "w1", some "b"⟩] poolW [("r0_3", "CANCEL")] 10 0 rfl⟩

/-- **C9, counterexample.** The fallback for an unknown worker id emits
no log at all: the whole run — every emitted event included — is
identical to the run of the same plan with the assignment pointing at
the first pool worker, so no warning is recorded (refuting the claim's
"records a warning"), while fallback, grading and completion do happen
exactly as for a valid assignment. -/
theorem c9_counterexample_no_warning_on_fallback :
    run_mission_loop envAllPass [⟨some "ghost", some "task"⟩] poolW [] 10
      = run_mission_loop envAllPass [⟨some "w1", some "task"⟩] poolW [] 10
    ∧ (run_mission_loop envAllPass [⟨some "ghost", some "task"⟩] poolW [] 10).ctx
        = ["OUT"] :=
  ⟨rfl, rfl⟩

/-- **C9, amended.** A step whose assigned worker id is missing from or
unknown in a non-empty pool falls back to the first available worker
without raising, and the run is identical — outcome, context, store and
emitted events (so in particular no warning log) — to the run of the
same step assigned to that first worker: the step is executed, graded
and completable exactly like a step with a valid assignment. -/
theorem c9_unknown_worker_falls_back_to_first (env : Env) (k : String) (a : Agent)
    (rest : List (String × Agent)) (aid : Option String) (instr : Option String)
    (plan : List Step) (store : List (String × String)) (fuel : Nat)
    (hmiss : agents_get ((k, a) :: rest) aid = none) :
    lookup_agent ((k, a) :: rest) aid = some a
    ∧ run_mission_loop env (⟨aid, instr⟩ :: plan) ((k, a) :: rest) store fuel
        = run_mission_loop env (⟨some k, instr⟩ :: plan) ((k, a) :: rest) store fuel := by
  have h1 : lookup_agent ((k, a) :: rest) aid = some a := by
    simp [lookup_agent, hmiss]
  refine ⟨h1, ?_⟩
  simp only [run_mission_loop, runMissionSteps, h1, lookup_agent_first]

theorem c9_unknown_worker_falls_back_to_first_witness :
    lookup_agent [("w1", ⟨"Writer"⟩)] (some "ghost") = some ⟨"Writer"⟩
    ∧ run_mission_loop envAllPass [⟨some "ghost", some "task"⟩] [("w1", ⟨"Writer"⟩)] [] 10
        = run_mission_loop envAllPass [⟨some "w1", some "task"⟩]
            [("w1", ⟨"Writer"⟩)] [] 10 :=
  c9_unknown_worker_falls_back_to_first envAllPass "w1" ⟨"Writer"⟩ [] (some "ghost")
    (some "task") [] [] 10 rfl

/-- **C10.** `run_mission_loop` needs a non-empty worker pool: on an
empty pool the very first step's fallback lookup fails (the uncaught
`IndexError`), the mission aborts before any worker is invoked or any
step graded — the trace holds only the two initial system logs — while
with any non-empty pool the lookup-error branch is unreachable. -/
theorem c10_nonempty_pool_precondition :
    (∀ (env : Env) (step : Step) (plan : List Step) (store : List (String × String))
        (fuel : Nat),
        (run_mission_loop env (step :: plan) [] store fuel).outcome = .agentLookupError 0
        ∧ (run_mission_loop env (step :: plan) [] store fuel).ctx = []
        ∧ (run_mission_loop env (step :: plan) [] store fuel).events
            = [ send_system_log
                  "Starting Execution: Flow optimization enabled. Supervisor (Gemini 2.5 Pro) ready.",
                send_system_log "● ACTION" ])
    ∧ (∀ (env : Env) (plan : List Step) (m : List (String × Agent))
        (store : List (String × String)) (fuel i : Nat), m ≠ [] →
        (run_mission_loop env plan m store fuel).outcome ≠ .agentLookupError i) := by
  constructor
  · intro env step plan store fuel
    have hla : lookup_agent [] step.agentId = none := by
      cases step.agentId <;> simp [lookup_agent, agents_get]
    refine ⟨?_, ?_, ?_⟩ <;> simp [run_mission_loop, runMissionSteps, hla]
  · intro env plan m store fuel i hm
    obtain ⟨p, ps, rfl⟩ := List.exists_cons_of_ne_nil hm
    exact runMissionSteps_no_lookup_error env p ps plan 0 [] store fuel i

theorem c10_nonempty_pool_precondition_witness :
    (run_mission_loop envAllPass [⟨some "w1", some "t"⟩] [] [] 5).outcome
        = .agentLookupError 0
    ∧ (run_mission_loop envAllPass [⟨some "w1", some "t"⟩] poolW [] 5).outcome
        ≠ .agentLookupError 0 :=
  ⟨(c10_nonempty_pool_precondition.1 envAllPass ⟨some "w1", some "t"⟩ [] [] 5).1,
    c10_nonempty_pool_precondition.2 envAllPass [⟨some "w1", some "t"⟩] poolW [] 5 0
      (by simp [poolW])⟩

end AgentOS
